import Mathlib

/-!
# go-server: sign-in, WeChat sign-in, WeChat account completion, invite lookup

A shallow embedding of `src/controller/invite/get.go` and
`src/src/controller/auth/signin.go`.

* The relational store is a record of four tables (lists of rows, in primary-key
  order).  `Begin` hands the controller a working copy; the deferred epilogue
  either commits the working copy or throws it away.
* gorm struct conditions (`tx.Where(&row)`) constrain exactly the fields of the
  struct that are not the Go zero value; this is what lets `SignIn` look a user
  up by "password plus one key", and it is modelled field by field.
* Everything the controllers call in other packages (validation, password
  hashing, id generation, the token service, the WeChat HTTP exchange, time
  formatting, database driver errors) is a field of `Env`.
* Constants of the packages `response`, `schema`, `model` and `exception`, which
  the two files only import, are fields of `Consts`.
-/

namespace GoServer

/-- Timestamps; `0` stands for the zero `time.Time`. -/
abbrev Time := Nat

/-- The named errors of package `exception` that the controllers use. -/
inductive Exception where
  | Unknown
  | InvalidParams
  | InvalidAccountOrPassword
  | UserIsInActive
  | UserHaveBeenBan
  | NoData
  | NoPermission
  | InviteNotExist
  deriving DecidableEq, Repr

/-- Go `error` values: the gorm sentinel, the named exceptions, and any other
error (driver, HTTP, JSON, `errors.New`) identified by its message. -/
inductive Err where
  | ErrRecordNotFound
  | exception (e : Exception)
  | other (msg : String)
  deriving DecidableEq, Repr

/-- Values a `recover()` can yield: a string, an error, or anything else. -/
inductive PanicValue where
  | str (t : String)
  | error (t : Err)
  | other
  deriving DecidableEq, Repr

/-- Constants the controllers import from the packages `response`, `schema`,
`model` and `exception`. -/
structure Consts where
  StatusSuccess : Int
  StatusFail : Int
  UserStatusInactivated : Int
  UserStatusInit : Int
  UserStatusBanned : Int
  GenderUnknown : Int
  DefaultUserName : String
  LoginLogTypeUserName : String
  LoginLogTypeWechat : String
  LoginLogCommandLoginSuccess : Int
  exceptionMessage : Exception → String
  recordNotFoundMessage : String

/-- The method `err.Error()`. -/
def Err.Error (c : Consts) : Err → String
  | .ErrRecordNotFound => c.recordNotFoundMessage
  | .exception e => c.exceptionMessage e
  | .other msg => msg

/-- The response envelope; a fresh one has Go zero values in every field. -/
structure Response (α : Type) where
  Message : String := ""
  Data : Option α := none
  Status : Int := 0
  deriving DecidableEq, Repr

/-- The struct `controller.Context`. -/
structure Context where
  Uid : String := ""
  UserAgent : String := ""
  Ip : String := ""
  deriving DecidableEq, Repr

/-! ## Rows -/

/-- The row type `model.InviteHistory`. -/
structure InviteHistory where
  Id : String := ""
  Inviter : String := ""
  Invitee : String := ""
  Status : Int := 0
  RewardSettled : Bool := false
  CreatedAt : Time := 0
  UpdatedAt : Time := 0
  deriving DecidableEq, Repr

/-- The row type `model.User`, with the fields the controllers touch. -/
structure User where
  Id : String := ""
  Username : String := ""
  Password : String := ""
  Nickname : Option String := none
  Phone : Option String := none
  Email : Option String := none
  Status : Int := 0
  Role : List String := []
  Gender : Int := 0
  PayPassword : Option String := none
  CreatedAt : Time := 0
  UpdatedAt : Time := 0
  deriving DecidableEq, Repr

/-- The row type `model.WechatOpenID`; `User` is the preloaded association
reached through `Uid`, it is not a column. -/
structure WechatOpenID where
  Id : String := ""
  Uid : String := ""
  User : User := {}
  deriving DecidableEq, Repr

/-- The row type `model.LoginLog`; `LoginType` is its Go field `Type`. -/
structure LoginLog where
  Id : String := ""
  Uid : String := ""
  LoginType : String := ""
  Command : Int := 0
  Client : String := ""
  LastIp : String := ""
  CreatedAt : Time := 0
  deriving DecidableEq, Repr

/-- The relational store: one list of rows per table, in primary-key order. -/
structure Store where
  users : List User := []
  wechatOpenIDs : List WechatOpenID := []
  loginLogs : List LoginLog := []
  invites : List InviteHistory := []
  deriving DecidableEq, Repr

/-! ## Request and response payloads -/

/-- The struct `SignInParams`. -/
structure SignInParams where
  Account : String := ""
  Password : String := ""
  Code : Option String := none
  deriving DecidableEq, Repr

/-- The struct `SignInWithWechatParams`. -/
structure SignInWithWechatParams where
  Code : String := ""
  deriving DecidableEq, Repr

/-- The struct `WechatResponse`. -/
structure WechatResponse where
  OpenID : String := ""
  SessionKey : String := ""
  UnionID : String := ""
  ErrCode : Int := 0
  ErrMsg : String := ""
  deriving DecidableEq, Repr

/-- The struct `WechatCompleteParams`. -/
structure WechatCompleteParams where
  Code : String := ""
  Phone : Option String := none
  Username : Option String := none
  deriving DecidableEq, Repr

/-- The struct `invite.Pure`: the invite fields copied by `mapstructure.Decode`. -/
structure InvitePure where
  Id : String := ""
  Inviter : String := ""
  Invitee : String := ""
  Status : Int := 0
  RewardSettled : Bool := false
  deriving DecidableEq, Repr

/-- The struct `invite.Invite`. -/
structure Invite where
  Pure : InvitePure := {}
  CreatedAt : String := ""
  UpdatedAt : String := ""
  deriving DecidableEq, Repr

/-- The struct `schema.ProfilePure`: the user fields copied by
`mapstructure.Decode`. -/
structure ProfilePure where
  Id : String := ""
  Username : String := ""
  Nickname : Option String := none
  Email : Option String := none
  Phone : Option String := none
  Status : Int := 0
  Role : List String := []
  Gender : Int := 0
  deriving DecidableEq, Repr

/-- The struct `schema.ProfileWithToken`. -/
structure ProfileWithToken where
  ProfilePure : ProfilePure := {}
  PayPassword : Bool := false
  CreatedAt : String := ""
  UpdatedAt : String := ""
  Token : String := ""
  deriving DecidableEq, Repr

/-! ## The environment of one call -/

/-- Result of an external call that may return a value, return an error, or
panic. -/
inductive Outcome (α : Type) where
  | ok (a : α)
  | error (e : Err)
  | panic (p : PanicValue)
  deriving DecidableEq, Repr

/-- Result of `http.Get`, `ioutil.ReadAll` and `json.Unmarshal` on the WeChat
session-exchange URL. -/
inductive WechatExchange where
  | reqErr (e : Err)
  | ioErr (e : Err)
  | jsonErr (e : Err)
  | ok (reqRes : WechatResponse)
  deriving DecidableEq, Repr

/-- Errors the database driver returns at a call site instead of executing it
(`none`: the statement runs on the working copy). -/
structure Faults where
  first : Option Err := none
  last : Option Err := none
  createUser : Option Err := none
  createOpenID : Option Err := none
  createLog : Option Err := none
  commit : Option Err := none
  deriving DecidableEq, Repr

/-- Everything a controller calls in other packages, as it behaves during one
call.  `updateNoTable` is the error the driver returns for an UPDATE that names
no table, `insertBlankKey` the error the database returns for an INSERT whose
primary key is blank. -/
structure Env where
  validateSignIn : SignInParams → Bool × Option Err
  validateSignInWithWechat : SignInWithWechatParams → Bool × Option Err
  validateWechatComplete : WechatCompleteParams → Bool × Option Err
  IsPhone : String → Bool
  IsEmail : String → Bool
  GeneratePassword : String → String
  GenerateId : String
  tokenGenerate : String → Bool → Outcome String
  wechatGet : String → WechatExchange
  decode : Option Err
  formatRFC3339Nano : Time → String
  now : Time
  newUserId : String
  newLogId : String
  updateNoTable : Err
  insertBlankKey : Err
  faults : Faults

/-! ## gorm queries on the working copy -/

/-- One field of a gorm struct condition.  A query by struct uses only the fields
that hold a non-zero value: a zero-valued field (empty string, nil pointer, 0,
false, nil slice) puts no constraint on the row, any other value must equal the
row's. -/
def cond {α : Type} [DecidableEq α] (zero f r : α) : Bool :=
  decide (f = zero) || decide (f = r)

/-- The condition `Where(&f)` for an invite filter `f`. -/
def InviteHistory.matches (f r : InviteHistory) : Bool :=
  cond "" f.Id r.Id && cond "" f.Inviter r.Inviter && cond "" f.Invitee r.Invitee
    && cond 0 f.Status r.Status && cond false f.RewardSettled r.RewardSettled
    && cond 0 f.CreatedAt r.CreatedAt && cond 0 f.UpdatedAt r.UpdatedAt

/-- The condition `Where(&f)` for a user filter `f`. -/
def User.matches (f r : User) : Bool :=
  cond "" f.Id r.Id && cond "" f.Username r.Username && cond "" f.Password r.Password
    && cond none f.Nickname r.Nickname && cond none f.Phone r.Phone
    && cond none f.Email r.Email && cond 0 f.Status r.Status && cond [] f.Role r.Role
    && cond 0 f.Gender r.Gender && cond none f.PayPassword r.PayPassword
    && cond 0 f.CreatedAt r.CreatedAt && cond 0 f.UpdatedAt r.UpdatedAt

/-- The condition `Where(&f)` for a WeChat mapping filter `f` (the association
`User` is not a column). -/
def WechatOpenID.matches (f r : WechatOpenID) : Bool :=
  cond "" f.Id r.Id && cond "" f.Uid r.Uid

/-- The query `tx.Where(cond).Last(&out)`, the last matching row in primary-key
order: the returned pair is the content of `out` after the call and the `.Error`
of the result.  A driver fault or an empty result leaves `out` as it was. -/
def Last {α : Type} (fault : Option Err) (m : α → Bool) (rows : List α) (out : α) :
    α × Option Err :=
  match fault with
  | some e => (out, some e)
  | none =>
    match rows.reverse.find? m with
    | some r => (r, none)
    | none => (out, some Err.ErrRecordNotFound)

/-- The query `tx.Where(cond).First(&out)`. -/
def First {α : Type} (fault : Option Err) (m : α → Bool) (rows : List α) (out : α) :
    α × Option Err :=
  match fault with
  | some e => (out, some e)
  | none =>
    match rows.find? m with
    | some r => (r, none)
    | none => (out, some Err.ErrRecordNotFound)

/-! ## The deferred epilogue shared by every controller -/

/-- What happened to the transaction of a call. -/
inductive TxOutcome where
  | notOpened
  | committed
  | rolledBack
  | commitFailed
  deriving DecidableEq, Repr

/-- State of the named variables when the body of a controller returns or
panics: the transaction handle (`none` is a nil `tx`), `err`, `data`, and the
value `recover()` will yield. -/
structure Exit (α : Type) where
  tx : Option Store := none
  err : Option Err := none
  data : α
  recovered : Option PanicValue := none

/-- What a call leaves behind: the response, the store, and the fate of the
transaction. -/
structure Run (α : Type) where
  res : Response α
  store : Store
  tx : TxOutcome

/-- The `recover()` switch of the deferred function. -/
def recoverErr : PanicValue → Err
  | .str t => .other t
  | .error t => t
  | .other => .exception .Unknown

/-- The first two blocks of the deferred function: a recovered panic becomes
`err`; an opened transaction is rolled back when `err` is set and committed
otherwise, the commit error becoming `err`.  A rollback or a failed commit leaves
the store as it was before `Begin`. -/
def settle {α : Type} (commit : Option Err) (s : Store) (x : Exit α) :
    Option Err × Store × TxOutcome :=
  let err := match x.recovered with
    | some p => some (recoverErr p)
    | none => x.err
  match x.tx with
  | none => (err, s, TxOutcome.notOpened)
  | some w =>
    match err with
    | some e => (some e, s, TxOutcome.rolledBack)
    | none =>
      match commit with
      | some e => (some e, s, TxOutcome.commitFailed)
      | none => (none, w, TxOutcome.committed)

/-! ## `invite.Get` -/

namespace invite

/-- The body of `Get` (get.go lines 53 to 79), up to its `return`s. -/
def Get.body (env : Env) (s : Store) (context : Context) (id : String) : Exit Invite :=
  let data : Invite := {}
  let inviteDetail : InviteHistory := { Id := id }
  let tx := s
  let q := Last env.faults.last (InviteHistory.matches inviteDetail) tx.invites inviteDetail
  let inviteDetail := q.1
  let err := q.2
  if err = some Err.ErrRecordNotFound then
    { tx := some tx, err := some (Err.exception Exception.InviteNotExist), data := data }
  else if inviteDetail.Inviter ≠ context.Uid ∧ inviteDetail.Invitee ≠ context.Uid then
    { tx := some tx, err := some (Err.exception Exception.NoPermission), data := data }
  else
    match env.decode with
    | some e => { tx := some tx, err := some e, data := data }
    | none =>
      let data : Invite :=
        { Pure :=
            { Id := inviteDetail.Id, Inviter := inviteDetail.Inviter,
              Invitee := inviteDetail.Invitee, Status := inviteDetail.Status,
              RewardSettled := inviteDetail.RewardSettled },
          CreatedAt := env.formatRFC3339Nano inviteDetail.CreatedAt,
          UpdatedAt := env.formatRFC3339Nano inviteDetail.UpdatedAt }
      { tx := some tx, err := none, data := data }

/-- The function `Get` of get.go: the body followed by the deferred function,
whose last block fills the response (on an error only `Message` and `Data` are
written, `Status` keeps its zero value). -/
def Get (c : Consts) (env : Env) (s : Store) (context : Context) (id : String) :
    Run Invite :=
  let x := Get.body env s context id
  let t := settle env.faults.commit s x
  let res : Response Invite := {}
  let res : Response Invite :=
    match t.1 with
    | some e => { res with Message := e.Error c, Data := none }
    | none => { res with Data := some x.data, Status := c.StatusSuccess }
  { res := res, store := t.2.1, tx := t.2.2 }

end invite

/-! ## Package `auth` -/

namespace helper

/-- Modelled from the spec: `helper.Response`, whose source is missing.  The spec has
every outcome "propagate to a uniform response envelope with a message string"
(status, message, data); the envelope is filled the way the deferred function of
`invite.Get` fills it inline: an error writes its message and a nil `Data`,
success writes `Data` and `StatusSuccess`. -/
def Response {α : Type} (c : Consts) (res : GoServer.Response α) (data : α)
    (err : Option Err) : GoServer.Response α :=
  match err with
  | some e => { res with Message := e.Error c, Data := none }
  | none => { res with Data := some data, Status := c.StatusSuccess }

end helper

namespace auth

/-- The deferred function of the three controllers of signin.go. -/
def deferred (c : Consts) (env : Env) (s : Store) (x : Exit ProfileWithToken) :
    Run ProfileWithToken :=
  let t := settle env.faults.commit s x
  { res := helper.Response c {} x.data t.1, store := t.2.1, tx := t.2.2 }

/-- The account resolver, lines 91 to 102 of signin.go: the struct that becomes
the condition of the user lookup. -/
def SignIn.resolve (env : Env) (input : SignInParams) : User :=
  let userInfo : User := { Password := env.GeneratePassword input.Password }
  if env.IsPhone input.Account = true ∧ input.Code ≠ none then
    { userInfo with Phone := some input.Account }
  else if env.IsEmail input.Account = true then
    { userInfo with Email := some input.Account }
  else
    { userInfo with Username := input.Account }

/-- The status gate, lines 113 to 122 of signin.go: the error it assigns, if
any. -/
def SignIn.statusCheck (c : Consts) (status : Int) : Option Err :=
  if status ≠ c.UserStatusInactivated then
    if status = c.UserStatusInactivated then
      some (Err.exception Exception.UserIsInActive)
    else if status = c.UserStatusBanned then
      some (Err.exception Exception.UserHaveBeenBan)
    else
      none
  else
    none

/-- The block every controller of signin.go ends with (lines 124 to 153, 274 to
303, 430 to 459): decode the profile, generate the token, insert the login
log. -/
def issue (c : Consts) (env : Env) (context : Context) (tx : Store) (userInfo : User)
    (logType : String) : Exit ProfileWithToken :=
  let data : ProfileWithToken := {}
  match env.decode with
  | some e => { tx := some tx, err := some e, data := data }
  | none =>
    let data : ProfileWithToken :=
      { data with
        ProfilePure :=
          { Id := userInfo.Id, Username := userInfo.Username, Nickname := userInfo.Nickname,
            Email := userInfo.Email, Phone := userInfo.Phone, Status := userInfo.Status,
            Role := userInfo.Role, Gender := userInfo.Gender },
        PayPassword :=
          (match userInfo.PayPassword with
            | some p => decide (p.length ≠ 0)
            | none => false),
        CreatedAt := env.formatRFC3339Nano userInfo.CreatedAt,
        UpdatedAt := env.formatRFC3339Nano userInfo.UpdatedAt }
    match env.tokenGenerate userInfo.Id false with
    | Outcome.panic p => { tx := some tx, err := none, data := data, recovered := some p }
    | Outcome.error er => { tx := some tx, err := some er, data := data }
    | Outcome.ok t =>
      let data : ProfileWithToken := { data with Token := t }
      let log : LoginLog :=
        { Uid := userInfo.Id, LoginType := logType,
          Command := c.LoginLogCommandLoginSuccess,
          Client := context.UserAgent, LastIp := context.Ip }
      match env.faults.createLog with
      | some e => { tx := some tx, err := some e, data := data }
      | none =>
        let row : LoginLog := { log with Id := env.newLogId, CreatedAt := env.now }
        { tx := some { tx with loginLogs := tx.loginLogs ++ [row] }, err := none,
          data := data }

/-- The body of `SignIn` (signin.go lines 83 to 153), up to its `return`s. -/
def SignIn.body (c : Consts) (env : Env) (s : Store) (context : Context)
    (input : SignInParams) : Exit ProfileWithToken :=
  let data : ProfileWithToken := {}
  let v := env.validateSignIn input
  match v.2 with
  | some e => { err := some e, data := data }
  | none =>
    if v.1 = false then
      { err := some (Err.exception Exception.InvalidParams), data := data }
    else
      let userInfo := SignIn.resolve env input
      let tx := s
      let q := Last env.faults.last (User.matches userInfo) tx.users userInfo
      match q.2 with
      | some e =>
        { tx := some tx,
          err := some (if e = Err.ErrRecordNotFound
            then Err.exception Exception.InvalidAccountOrPassword else e),
          data := data }
      | none =>
        let userInfo := q.1
        match SignIn.statusCheck c userInfo.Status with
        | some e => { tx := some tx, err := some e, data := data }
        | none => issue c env context tx userInfo c.LoginLogTypeUserName

/-- The function `SignIn` of signin.go. -/
def SignIn (c : Consts) (env : Env) (s : Store) (context : Context)
    (input : SignInParams) : Run ProfileWithToken :=
  deferred c env s (SignIn.body c env s context input)

/-- The query `tx.Where(&wechatOpenID).Preload("User").First(&wechatOpenID)`:
the mapping found, with its `User` loaded through `Uid` (a zero `User` when no
such user row exists). -/
def firstWithUser (env : Env) (tx : Store) (wechatOpenID : WechatOpenID) :
    WechatOpenID × Option Err :=
  let q := First env.faults.first (WechatOpenID.matches wechatOpenID) tx.wechatOpenIDs
    wechatOpenID
  match q.2 with
  | some e => (q.1, some e)
  | none =>
    ({ q.1 with User := (tx.users.find? (fun u => decide (u.Id = q.1.Uid))).getD {} }, none)

/-- The insert `tx.Create(&model.WechatOpenID{...})` of lines 250 to 253: the
error of the result and the working copy after it.  gorm leaves a blank primary
key out of the INSERT, and the database rejects a mapping without its id. -/
def CreateWechatOpenID (env : Env) (row : WechatOpenID) (tx : Store) : Option Err × Store :=
  if row.Id = "" then
    (some env.insertBlankKey, tx)
  else
    match env.faults.createOpenID with
    | some e => (some e, tx)
    | none => (none, { tx with wechatOpenIDs := tx.wechatOpenIDs ++ [row] })

/-- The body of `SignInWithWechat` (signin.go lines 188 to 303). -/
def SignInWithWechat.body (c : Consts) (env : Env) (s : Store) (context : Context)
    (input : SignInWithWechatParams) : Exit ProfileWithToken :=
  let data : ProfileWithToken := {}
  let v := env.validateSignInWithWechat input
  match v.2 with
  | some e => { err := some e, data := data }
  | none =>
    if v.1 = false then
      { err := some (Err.exception Exception.InvalidParams), data := data }
    else
      match env.wechatGet input.Code with
      | WechatExchange.reqErr e => { err := some e, data := data }
      | WechatExchange.ioErr e => { err := some e, data := data }
      | WechatExchange.jsonErr e => { err := some e, data := data }
      | WechatExchange.ok reqRes =>
        let tx := s
        let wechatOpenID : WechatOpenID := { Id := reqRes.OpenID }
        let result := firstWithUser env tx wechatOpenID
        if result.2 = some Err.ErrRecordNotFound then
          let uid := env.GenerateId
          let username := "v" ++ uid
          let userInfo : User :=
            { Username := username, Nickname := some username,
              Password := env.GeneratePassword uid,
              Status := c.UserStatusInactivated,
              Role := [c.DefaultUserName], Gender := c.GenderUnknown }
          match env.faults.createUser with
          | some e => { tx := some tx, err := some e, data := data }
          | none =>
            let userInfo : User :=
              { userInfo with Id := env.newUserId, CreatedAt := env.now, UpdatedAt := env.now }
            let tx : Store := { tx with users := tx.users ++ [userInfo] }
            let created := CreateWechatOpenID env { Id := reqRes.OpenID, Uid := userInfo.Id } tx
            match created.1 with
            | some e => { tx := some created.2, err := some e, data := data }
            | none => { tx := some created.2, err := none, data := data }
        else
          let userInfo := result.1.User
          let q := Last env.faults.last (User.matches userInfo) tx.users userInfo
          match q.2 with
          | some e =>
            { tx := some tx,
              err := some (if e = Err.ErrRecordNotFound
                then Err.exception Exception.InvalidAccountOrPassword else e),
              data := data }
          | none => issue c env context tx q.1 c.LoginLogTypeWechat

/-- The function `SignInWithWechat` of signin.go. -/
def SignInWithWechat (c : Consts) (env : Env) (s : Store) (context : Context)
    (input : SignInWithWechatParams) : Run ProfileWithToken :=
  deferred c env s (SignInWithWechat.body c env s context input)

/-- The statement `tx.Where(&filter).Update(&updated)` of line 418: the error of
the result and the rows after it.  The statement names neither a model nor a
table, so the UPDATE that gorm generates has an empty table name; the driver
rejects it and no row changes, whatever `filter` and `updated` hold. -/
def Update (env : Env) (_filter _updated : User) (rows : List User) :
    Option Err × List User :=
  (some env.updateNoTable, rows)

/-- The struct `updated` of lines 401 to 411 of signin.go. -/
def WechatAccountComplete.updated (c : Consts) (input : WechatCompleteParams) : User :=
  let updated : User := { Status := c.UserStatusInit }
  let updated : User :=
    match input.Phone with
    | some p => { updated with Phone := some p }
    | none => updated
  match input.Username with
  | some n => { updated with Username := n }
  | none => updated

/-- Lines 400 to 421 of signin.go, the conditional update of the linked user:
the error it assigns, if any, and the working copy after it. -/
def WechatAccountComplete.complete (c : Consts) (env : Env) (tx : Store) (userInfo : User)
    (input : WechatCompleteParams) : Option Err × Store :=
  if input.Phone ≠ none ∨ input.Username ≠ none then
    let updated := WechatAccountComplete.updated c input
    let filter : User := { Id := userInfo.Id, Status := c.UserStatusInactivated }
    let r := Update env filter updated tx.users
    (r.1, { tx with users := r.2 })
  else
    (none, tx)

/-- The body of `WechatAccountComplete` (signin.go lines 338 to 459). -/
def WechatAccountComplete.body (c : Consts) (env : Env) (s : Store) (context : Context)
    (input : WechatCompleteParams) : Exit ProfileWithToken :=
  let data : ProfileWithToken := {}
  let v := env.validateWechatComplete input
  match v.2 with
  | some e => { err := some e, data := data }
  | none =>
    if v.1 = false then
      { err := some (Err.exception Exception.InvalidParams), data := data }
    else if (match input.Phone with
        | some p => !(env.IsPhone p)
        | none => false) = true then
      { err := some (Err.exception Exception.InvalidParams), data := data }
    else
      match env.wechatGet input.Code with
      | WechatExchange.reqErr e => { err := some e, data := data }
      | WechatExchange.ioErr e => { err := some e, data := data }
      | WechatExchange.jsonErr e => { err := some e, data := data }
      | WechatExchange.ok reqRes =>
        let tx := s
        let wechatOpenID : WechatOpenID := { Id := reqRes.OpenID }
        let result := firstWithUser env tx wechatOpenID
        if result.2 = some Err.ErrRecordNotFound then
          { tx := some tx, err := some (Err.exception Exception.NoData), data := data }
        else
          let userInfo := result.1.User
          let upd := WechatAccountComplete.complete c env tx userInfo input
          match upd.1 with
          | some e => { tx := some upd.2, err := some e, data := data }
          | none =>
            let tx := upd.2
            let q := Last env.faults.last (User.matches userInfo) tx.users userInfo
            match q.2 with
            | some e =>
              { tx := some tx,
                err := some (if e = Err.ErrRecordNotFound
                  then Err.exception Exception.InvalidAccountOrPassword else e),
                data := data }
            | none => issue c env context tx q.1 c.LoginLogTypeWechat

/-- The function `WechatAccountComplete` of signin.go. -/
def WechatAccountComplete (c : Consts) (env : Env) (s : Store) (context : Context)
    (input : WechatCompleteParams) : Run ProfileWithToken :=
  deferred c env s (WechatAccountComplete.body c env s context input)

end auth

/-! ## Concrete constants, environment and stores used by the closed theorems -/

/-- The message of each named exception in the sample constants. -/
def sampleMessage : Exception → String
  | .Unknown => "unknown error"
  | .InvalidParams => "invalid params"
  | .InvalidAccountOrPassword => "invalid account or password"
  | .UserIsInActive => "user is inactive"
  | .UserHaveBeenBan => "user have been ban"
  | .NoData => "no data"
  | .NoPermission => "no permission"
  | .InviteNotExist => "invite not exist"

/-- A choice of the imported constants. -/
def sampleConsts : Consts :=
  { StatusSuccess := 1, StatusFail := 0,
    UserStatusInactivated := -1, UserStatusInit := 0, UserStatusBanned := -100,
    GenderUnknown := 0, DefaultUserName := "user",
    LoginLogTypeUserName := "username", LoginLogTypeWechat := "wechat",
    LoginLogCommandLoginSuccess := 1,
    exceptionMessage := sampleMessage,
    recordNotFoundMessage := "record not found" }

/-- An environment without injected faults: every struct is valid, `13800000000` is the
only phone number, `a@b.c` the only email address, the password hash prefixes
`#`, the token of user `u` is `token-u`, every WeChat code exchanges to the
openid `openid-1`, timestamps are rendered as `t0`, `t1`, and so on. -/
def sampleEnv : Env :=
  { validateSignIn := fun _ => (true, none),
    validateSignInWithWechat := fun _ => (true, none),
    validateWechatComplete := fun _ => (true, none),
    IsPhone := fun a => decide (a = "13800000000"),
    IsEmail := fun a => decide (a = "a@b.c"),
    GeneratePassword := fun p => "#" ++ p,
    GenerateId := "g1",
    tokenGenerate := fun uid _ => Outcome.ok ("token-" ++ uid),
    wechatGet := fun _ => WechatExchange.ok { OpenID := "openid-1", SessionKey := "k" },
    decode := none,
    formatRFC3339Nano := fun t => "t" ++ toString t,
    now := 7,
    newUserId := "u9",
    newLogId := "l9",
    updateNoTable := Err.other "zero-length delimited identifier",
    insertBlankKey := Err.other "null value in column id violates not-null constraint",
    faults := {} }

/-! ## Store invariants -/

/-- The invite table respects its primary key: ids are unique and non-empty. -/
def InviteKeys (s : Store) : Prop :=
  (s.invites.map (fun r => r.Id)).Nodup ∧ ∀ r ∈ s.invites, r.Id ≠ ""

/-! ## Sample stores -/

/-- An invite whose invitee is user `u1`. -/
def sampleInvite1 : InviteHistory :=
  { Id := "i1", Inviter := "123123", Invitee := "u1", Status := 1, CreatedAt := 3,
    UpdatedAt := 4 }

/-- An invite between two other users. -/
def sampleInvite2 : InviteHistory :=
  { Id := "i2", Inviter := "123123", Invitee := "123123", Status := 1, CreatedAt := 5,
    UpdatedAt := 6 }

/-- A store holding the two sample invites. -/
def sampleInviteStore : Store := { invites := [sampleInvite1, sampleInvite2] }

/-- The sample environment with the invite lookup failing in the driver. -/
def sampleEnvLookupDown : Env :=
  { sampleEnv with faults := { last := some (Err.other "connection refused") } }

/-- A user that is not activated. -/
def sampleAlice : User :=
  { Id := "u1", Username := "alice", Password := "#pw", Status := -1, CreatedAt := 1,
    UpdatedAt := 2 }

/-- A user that is banned. -/
def sampleBob : User :=
  { Id := "u2", Username := "bob", Password := "#pw", Status := -100, CreatedAt := 1,
    UpdatedAt := 2 }

/-- A store with the two sample users; the openid `openid-1` is linked to the
first of them. -/
def sampleAuthStore : Store :=
  { users := [sampleAlice, sampleBob], wechatOpenIDs := [{ Id := "openid-1", Uid := "u1" }] }

/-- The sample constants with a non-zero `UserStatusInit`. -/
def sampleConstsInit1 : Consts := { sampleConsts with UserStatusInit := 1 }

/-- The sample environment with a session exchange that reports an error: an
error code and message, no openid. -/
def sampleEnvWechatError : Env :=
  { sampleEnv with
    wechatGet := fun _ => WechatExchange.ok { ErrCode := 40029, ErrMsg := "invalid code" } }

/-- The user table respects its primary key: ids are unique and non-empty. -/
def UserKeys (s : Store) : Prop :=
  (s.users.map (fun u => u.Id)).Nodup ∧ ∀ u ∈ s.users, u.Id ≠ ""

/-- The sample environment with a commit that fails in the driver. -/
def sampleEnvCommitDown : Env :=
  { sampleEnv with faults := { commit := some (Err.other "commit failed") } }

open auth invite

/-! ## Lemmas on queries -/

theorem find_of_key {α : Type} (key : α → String) (m : α → Bool) (rows : List α) (r : α)
    (hk : (rows.map key).Nodup) (hr : r ∈ rows)
    (hm : ∀ x ∈ rows, m x = true ↔ key x = key r) :
    rows.find? m = some r := by
  cases h : rows.find? m with
  | none =>
    have := List.find?_eq_none.mp h r hr
    exact absurd ((hm r hr).mpr rfl) this
  | some x =>
    have hx : x ∈ rows := List.mem_of_find?_eq_some h
    have hmx : m x = true := List.find?_some h
    have : key x = key r := (hm x hx).mp hmx
    rw [List.inj_on_of_nodup_map hk hx hr this]

theorem find_reverse_of_key {α : Type} (key : α → String) (m : α → Bool) (rows : List α)
    (r : α) (hk : (rows.map key).Nodup) (hr : r ∈ rows)
    (hm : ∀ x ∈ rows, m x = true ↔ key x = key r) :
    rows.reverse.find? m = some r := by
  apply find_of_key key m rows.reverse r
  · rw [List.map_reverse]; exact List.nodup_reverse.mpr hk
  · exact List.mem_reverse.mpr hr
  · intro x hx; exact hm x (List.mem_reverse.mp hx)

theorem inviteHistory_matches_id (id : String) (r : InviteHistory) :
    InviteHistory.matches { Id := id } r = (decide (id = "") || decide (id = r.Id)) := by
  simp [InviteHistory.matches, cond]

theorem Last_found {α : Type} (m : α → Bool) (rows : List α) (out r : α)
    (h : rows.reverse.find? m = some r) : Last none m rows out = (r, none) := by
  simp [Last, h]

theorem Last_missing {α : Type} (m : α → Bool) (rows : List α) (out : α)
    (h : ∀ x ∈ rows, m x = false) : Last none m rows out = (out, some Err.ErrRecordNotFound) := by
  have : rows.reverse.find? m = none := by
    apply List.find?_eq_none.mpr
    intro x hx
    simp [h x (List.mem_reverse.mp hx)]
  simp [Last, this]

theorem invite_lookup (env : Env) (s : Store) (r : InviteHistory)
    (hfault : env.faults.last = none) (hk : InviteKeys s) (hr : r ∈ s.invites) :
    Last env.faults.last (InviteHistory.matches { Id := r.Id }) s.invites { Id := r.Id }
      = (r, none) := by
  rw [hfault]
  apply Last_found
  apply find_reverse_of_key (fun r => r.Id) _ _ _ hk.1 hr
  intro x _
  rw [inviteHistory_matches_id]
  have := hk.2 r hr
  simp [this, eq_comm]

/-- C1: when the invite table respects its primary key and the lookup meets no
driver error, for every requester and every invite record stored under the
requested id whose inviter and invitee both differ from the requester,
`invite.Get` answers with `Status = StatusFail` (the zero value the response
starts with), the message of `exception.NoPermission`, and nil data. -/
theorem invite_get_no_permission (c : Consts) (env : Env) (s : Store) (context : Context)
    (id : String) (r : InviteHistory)
    (hfail : c.StatusFail = 0) (hfault : env.faults.last = none) (hk : InviteKeys s)
    (hr : r ∈ s.invites) (hid : r.Id = id)
    (h1 : r.Inviter ≠ context.Uid) (h2 : r.Invitee ≠ context.Uid) :
    (Get c env s context id).res.Status = c.StatusFail
      ∧ (Get c env s context id).res.Message = (Err.exception Exception.NoPermission).Error c
      ∧ (Get c env s context id).res.Data = none := by
  subst hid
  have hq := invite_lookup env s r hfault hk hr
  simp [Get, Get.body, hq, h1, h2, settle, hfail]

theorem sampleInviteStore_keys : InviteKeys sampleInviteStore := by
  constructor
  · decide
  · intro r hr
    simp [sampleInviteStore, sampleInvite1, sampleInvite2] at hr
    rcases hr with rfl | rfl <;> decide

/-- Witness of C1: user `u1` asks for the sample invite `i2`, which is between two
other users. -/
theorem invite_get_no_permission_witness :
    (Get sampleConsts sampleEnv sampleInviteStore { Uid := "u1" } "i2").res.Status
        = sampleConsts.StatusFail
      ∧ (Get sampleConsts sampleEnv sampleInviteStore { Uid := "u1" } "i2").res.Message
        = (Err.exception Exception.NoPermission).Error sampleConsts
      ∧ (Get sampleConsts sampleEnv sampleInviteStore { Uid := "u1" } "i2").res.Data = none :=
  invite_get_no_permission sampleConsts sampleEnv sampleInviteStore { Uid := "u1" } "i2"
    sampleInvite2 rfl rfl sampleInviteStore_keys (by simp [sampleInviteStore]) rfl
    (by decide) (by decide)

/-- Counterexample to C2 as stated: the sample store holds no invite under the
empty id, yet `invite.Get` with the empty id does not answer `InviteNotExist`.
The condition built from a struct whose `Id` is empty constrains nothing, the
lookup returns the last invite of the table, and the requester is refused for
that record. -/
theorem invite_get_empty_id :
    (∀ r ∈ sampleInviteStore.invites, r.Id ≠ "")
      ∧ (Get sampleConsts sampleEnv sampleInviteStore { Uid := "u1" } "").res.Message
        ≠ (Err.exception Exception.InviteNotExist).Error sampleConsts
      ∧ (Get sampleConsts sampleEnv sampleInviteStore { Uid := "u1" } "").res.Message
        = (Err.exception Exception.NoPermission).Error sampleConsts := by
  refine ⟨sampleInviteStore_keys.2, ?_, ?_⟩
  · decide
  · decide

/-- C2, amended: when the lookup meets no driver error, for every requester and
every id that is non-empty (or any id when the invite table is empty) under which
the store holds no invite record, `invite.Get` answers with `Status = StatusFail`,
the message of `exception.InviteNotExist`, and nil data. -/
theorem invite_get_not_exist (c : Consts) (env : Env) (s : Store) (context : Context)
    (id : String)
    (hfail : c.StatusFail = 0) (hfault : env.faults.last = none)
    (hid : id ≠ "" ∨ s.invites = [])
    (hno : ∀ r ∈ s.invites, r.Id ≠ id) :
    (Get c env s context id).res.Status = c.StatusFail
      ∧ (Get c env s context id).res.Message = (Err.exception Exception.InviteNotExist).Error c
      ∧ (Get c env s context id).res.Data = none := by
  have hq : Last env.faults.last (InviteHistory.matches { Id := id }) s.invites { Id := id }
      = ({ Id := id }, some Err.ErrRecordNotFound) := by
    rw [hfault]
    apply Last_missing
    intro x hx
    rw [inviteHistory_matches_id]
    rcases hid with hid | hid
    · have hx' : ¬ id = x.Id := fun h => hno x hx h.symm
      simp [hid, hx']
    · simp [hid] at hx
  simp [Get, Get.body, hq, settle, hfail]

/-- Witness of the amended C2: the id `12313` of the test, unknown to the sample
store. -/
theorem invite_get_not_exist_witness :
    (Get sampleConsts sampleEnv sampleInviteStore { Uid := "u1" } "12313").res.Status
        = sampleConsts.StatusFail
      ∧ (Get sampleConsts sampleEnv sampleInviteStore { Uid := "u1" } "12313").res.Message
        = (Err.exception Exception.InviteNotExist).Error sampleConsts
      ∧ (Get sampleConsts sampleEnv sampleInviteStore { Uid := "u1" } "12313").res.Data = none :=
  invite_get_not_exist sampleConsts sampleEnv sampleInviteStore { Uid := "u1" } "12313"
    rfl rfl (Or.inl (by decide))
    (by
      intro r hr
      simp [sampleInviteStore, sampleInvite1, sampleInvite2] at hr
      rcases hr with rfl | rfl <;> decide)

/-- C3: when the invite table respects its primary key and the lookup meets no
driver error, for every invite record stored under the requested id whose inviter
or invitee is the requester, and whose transaction commits (decoding and the
commit meet no error), `invite.Get` answers with `Status = StatusSuccess`, an
empty message, and as data the id, inviter, invitee, status and reward-settled
flag of the stored record together with its `CreatedAt` and `UpdatedAt` rendered
by the RFC3339Nano formatter; the transaction is committed and the store is
unchanged. -/
theorem invite_get_success (c : Consts) (env : Env) (s : Store) (context : Context)
    (id : String) (r : InviteHistory)
    (hfault : env.faults.last = none) (hk : InviteKeys s)
    (hr : r ∈ s.invites) (hid : r.Id = id)
    (hp : r.Inviter = context.Uid ∨ r.Invitee = context.Uid)
    (hd : env.decode = none) (hc : env.faults.commit = none) :
    (Get c env s context id).res.Status = c.StatusSuccess
      ∧ (Get c env s context id).res.Message = ""
      ∧ (Get c env s context id).res.Data = some
          { Pure :=
              { Id := r.Id, Inviter := r.Inviter, Invitee := r.Invitee, Status := r.Status,
                RewardSettled := r.RewardSettled },
            CreatedAt := env.formatRFC3339Nano r.CreatedAt,
            UpdatedAt := env.formatRFC3339Nano r.UpdatedAt }
      ∧ (Get c env s context id).tx = TxOutcome.committed
      ∧ (Get c env s context id).store = s := by
  subst hid
  have hq := invite_lookup env s r hfault hk hr
  have hp' : ¬ (r.Inviter ≠ context.Uid ∧ r.Invitee ≠ context.Uid) := by
    rcases hp with h | h <;> simp [h]
  simp only [Get, Get.body, hq]
  rw [if_neg (by simp), if_neg hp']
  simp [hd, hc, settle]

/-- C8 at a failing input: the invite lookup fails with the driver error
`connection refused`.  For requester `u1` the response carries the message of
`exception.NoPermission`, not the message of the lookup error; for the empty
requester the response is a success and the transaction is committed. -/
theorem invite_get_lookup_error :
    (Get sampleConsts sampleEnvLookupDown sampleInviteStore { Uid := "u1" } "i1").res.Message
        = (Err.exception Exception.NoPermission).Error sampleConsts
      ∧ (Get sampleConsts sampleEnvLookupDown sampleInviteStore { Uid := "u1" } "i1").res.Message
        ≠ (Err.other "connection refused").Error sampleConsts
      ∧ (Get sampleConsts sampleEnvLookupDown sampleInviteStore { Uid := "" } "i1").res.Status
        = sampleConsts.StatusSuccess
      ∧ (Get sampleConsts sampleEnvLookupDown sampleInviteStore { Uid := "" } "i1").tx
        = TxOutcome.committed := by
  decide

/-- Witness of C3: user `u1` asks for the sample invite `i1`, of which it is the
invitee, and user `123123` asks for it as its inviter. -/
theorem invite_get_success_witness :
    ((Get sampleConsts sampleEnv sampleInviteStore { Uid := "u1" } "i1").res.Status
        = sampleConsts.StatusSuccess
      ∧ (Get sampleConsts sampleEnv sampleInviteStore { Uid := "u1" } "i1").res.Message = ""
      ∧ (Get sampleConsts sampleEnv sampleInviteStore { Uid := "u1" } "i1").res.Data = some
          { Pure :=
              { Id := sampleInvite1.Id, Inviter := sampleInvite1.Inviter,
                Invitee := sampleInvite1.Invitee, Status := sampleInvite1.Status,
                RewardSettled := sampleInvite1.RewardSettled },
            CreatedAt := sampleEnv.formatRFC3339Nano sampleInvite1.CreatedAt,
            UpdatedAt := sampleEnv.formatRFC3339Nano sampleInvite1.UpdatedAt }
      ∧ (Get sampleConsts sampleEnv sampleInviteStore { Uid := "u1" } "i1").tx
        = TxOutcome.committed
      ∧ (Get sampleConsts sampleEnv sampleInviteStore { Uid := "u1" } "i1").store
        = sampleInviteStore)
      ∧ (Get sampleConsts sampleEnv sampleInviteStore { Uid := "123123" } "i1").res.Status
        = sampleConsts.StatusSuccess :=
  ⟨invite_get_success sampleConsts sampleEnv sampleInviteStore { Uid := "u1" } "i1"
      sampleInvite1 rfl sampleInviteStore_keys (by simp [sampleInviteStore]) rfl
      (Or.inr rfl) rfl rfl,
    (invite_get_success sampleConsts sampleEnv sampleInviteStore { Uid := "123123" } "i1"
      sampleInvite1 rfl sampleInviteStore_keys (by simp [sampleInviteStore]) rfl
      (Or.inl rfl) rfl rfl).1⟩

/-! ## The deferred function -/

theorem deferred_cases (c : Consts) (env : Env) (s : Store) (x : Exit ProfileWithToken) :
    ((deferred c env s x).tx = TxOutcome.committed
        ∧ x.err = none ∧ x.recovered = none ∧ env.faults.commit = none
        ∧ x.tx = some (deferred c env s x).store
        ∧ (deferred c env s x).res.Status = c.StatusSuccess
        ∧ (deferred c env s x).res.Message = ""
        ∧ (deferred c env s x).res.Data = some x.data)
      ∨ ((deferred c env s x).tx ≠ TxOutcome.committed
        ∧ (x.err ≠ none ∨ x.recovered ≠ none ∨ env.faults.commit ≠ none)
        ∧ (deferred c env s x).store = s
        ∧ (deferred c env s x).res.Status = 0
        ∧ (deferred c env s x).res.Data = none)
      ∨ (x.tx = none ∧ x.err = none ∧ x.recovered = none
        ∧ (deferred c env s x).store = s) := by
  rcases x with ⟨tx, err, data, recovered⟩
  cases recovered <;> cases tx <;> cases err <;> cases hc : env.faults.commit <;>
    simp [deferred, settle, helper.Response, hc]

theorem deferred_outcome (c : Consts) (env : Env) (s : Store) (x : Exit ProfileWithToken) :
    (x.tx = none →
        (deferred c env s x).tx = TxOutcome.notOpened ∧ (deferred c env s x).store = s)
      ∧ (x.err ≠ none ∨ x.recovered ≠ none →
        (deferred c env s x).res.Data = none ∧ (deferred c env s x).res.Status = 0
          ∧ (deferred c env s x).store = s)
      ∧ (x.tx ≠ none → (x.err ≠ none ∨ x.recovered ≠ none) →
        (deferred c env s x).tx = TxOutcome.rolledBack)
      ∧ (x.tx ≠ none → x.err = none → x.recovered = none →
        ∀ e, env.faults.commit = some e →
          (deferred c env s x).tx = TxOutcome.commitFailed
            ∧ (deferred c env s x).res.Data = none
            ∧ (deferred c env s x).res.Status = 0
            ∧ (deferred c env s x).res.Message = e.Error c
            ∧ (deferred c env s x).store = s) := by
  rcases x with ⟨tx, err, data, recovered⟩
  cases recovered <;> cases tx <;> cases err <;> cases hc : env.faults.commit <;>
    simp [deferred, settle, helper.Response, hc]

theorem signIn_body_tx (c : Consts) (env : Env) (s : Store) (context : Context)
    (input : SignInParams) (h : (SignIn.body c env s context input).tx = none) :
    (SignIn.body c env s context input).err ≠ none := by
  revert h
  unfold SignIn.body issue
  simp only []
  repeat' split
  all_goals simp

theorem signIn_body_opened (c : Consts) (env : Env) (s : Store) (context : Context)
    (input : SignInParams) :
    (SignIn.body c env s context input).tx ≠ none ↔
      ((env.validateSignIn input).2 = none ∧ (env.validateSignIn input).1 = true) := by
  unfold SignIn.body issue
  simp only []
  repeat' split
  all_goals simp_all

theorem Last_ok {α : Type} (fault : Option Err) (m : α → Bool) (rows : List α) (out : α)
    (h : (Last fault m rows out).2 = none) :
    (Last fault m rows out).1 ∈ rows ∧ m (Last fault m rows out).1 = true := by
  unfold Last at h ⊢
  cases fault with
  | some e => simp at h
  | none =>
    cases hf : rows.reverse.find? m with
    | none => simp [hf] at h
    | some r =>
      simp only [hf]
      exact ⟨List.mem_reverse.mp (List.mem_of_find?_eq_some hf), List.find?_some hf⟩

/-- The login-log row that a successful call inserts for user `uid`. -/
theorem issue_ok (c : Consts) (env : Env) (context : Context) (tx : Store) (u : User)
    (t : String) (w : Store)
    (h1 : (issue c env context tx u t).err = none)
    (h2 : (issue c env context tx u t).recovered = none)
    (h3 : (issue c env context tx u t).tx = some w) :
    w = { tx with loginLogs := tx.loginLogs ++
          [{ Id := env.newLogId, Uid := u.Id, LoginType := t,
             Command := c.LoginLogCommandLoginSuccess, Client := context.UserAgent,
             LastIp := context.Ip, CreatedAt := env.now }] }
      ∧ ∃ tok, env.tokenGenerate u.Id false = Outcome.ok tok
        ∧ (issue c env context tx u t).data.Token = tok
        ∧ (issue c env context tx u t).data.ProfilePure.Id = u.Id := by
  revert h1 h2 h3
  unfold issue
  simp only []
  repeat' split
  all_goals simp_all

theorem signIn_body_ok (c : Consts) (env : Env) (s : Store) (context : Context)
    (input : SignInParams) (w : Store)
    (h1 : (SignIn.body c env s context input).err = none)
    (h2 : (SignIn.body c env s context input).recovered = none)
    (h3 : (SignIn.body c env s context input).tx = some w) :
    ∃ u ∈ s.users, User.matches (SignIn.resolve env input) u = true
      ∧ w = { s with loginLogs := s.loginLogs ++
          [{ Id := env.newLogId, Uid := u.Id, LoginType := c.LoginLogTypeUserName,
             Command := c.LoginLogCommandLoginSuccess, Client := context.UserAgent,
             LastIp := context.Ip, CreatedAt := env.now }] }
      ∧ (SignIn.body c env s context input).data.ProfilePure.Id = u.Id := by
  revert h1 h2 h3
  unfold SignIn.body
  simp only []
  split
  · simp
  · split
    · simp
    · split
      · simp
      · rename_i hq
        split
        · simp
        · intro h1 h2 h3
          have hl := Last_ok _ _ _ _ hq
          have hi := issue_ok c env context s _ _ w h1 h2 h3
          obtain ⟨hw, tok, _, _, hid⟩ := hi
          exact ⟨_, hl.1, hl.2, hw, hid⟩

/-- Counterexample to C7 as stated: the commit of the sign-in of `alice` fails in
the driver.  The response is a failure carrying the commit error and the store is
unchanged, but the opened transaction is not rolled back: the deferred function
calls `Rollback` only when `err` is set before the commit. -/
theorem signIn_commit_error :
    (SignIn sampleConsts sampleEnvCommitDown sampleAuthStore {}
        { Account := "alice", Password := "pw" }).res.Data = none
      ∧ (SignIn sampleConsts sampleEnvCommitDown sampleAuthStore {}
        { Account := "alice", Password := "pw" }).res.Message
        = (Err.other "commit failed").Error sampleConsts
      ∧ (SignIn.body sampleConsts sampleEnvCommitDown sampleAuthStore {}
        { Account := "alice", Password := "pw" }).tx ≠ none
      ∧ (SignIn sampleConsts sampleEnvCommitDown sampleAuthStore {}
        { Account := "alice", Password := "pw" }).tx ≠ TxOutcome.rolledBack
      ∧ (SignIn sampleConsts sampleEnvCommitDown sampleAuthStore {}
        { Account := "alice", Password := "pw" }).tx = TxOutcome.commitFailed
      ∧ (SignIn sampleConsts sampleEnvCommitDown sampleAuthStore {}
        { Account := "alice", Password := "pw" }).store = sampleAuthStore := by
  decide

/-- C7, amended: `auth.SignIn` is atomic over the store.  A failing response (nil
`Data`, or a `Status` other than `StatusSuccess`) leaves the store exactly as it
was, with no new login log, and the transaction uncommitted.  A validation
failure opens no transaction.  Once the transaction is opened, every error of the
body (user not found, rejected status, decoding, token generation, log insert)
and every recovered panic gives a failing response and the transaction is rolled
back.  A commit error gives a failing response carrying that error; no rollback
is issued, the failed commit ends the transaction.  The transaction is committed
only when the body ended without error or panic and the commit succeeded, and
then the store has gained exactly one login log of a stored user that matches the
lookup. -/
theorem signIn_atomic (c : Consts) (env : Env) (s : Store) (context : Context)
    (input : SignInParams) :
    ((SignIn c env s context input).res.Data = none
          ∨ (SignIn c env s context input).res.Status ≠ c.StatusSuccess →
        (SignIn c env s context input).store = s
          ∧ (SignIn c env s context input).store.loginLogs = s.loginLogs
          ∧ (SignIn c env s context input).tx ≠ TxOutcome.committed)
      ∧ (¬ ((env.validateSignIn input).2 = none ∧ (env.validateSignIn input).1 = true) →
        (SignIn c env s context input).tx = TxOutcome.notOpened
          ∧ (SignIn c env s context input).res.Data = none
          ∧ (SignIn c env s context input).store = s)
      ∧ ((env.validateSignIn input).2 = none ∧ (env.validateSignIn input).1 = true →
        (SignIn.body c env s context input).err ≠ none
          ∨ (SignIn.body c env s context input).recovered ≠ none →
        (SignIn c env s context input).tx = TxOutcome.rolledBack
          ∧ (SignIn c env s context input).res.Data = none
          ∧ (SignIn c env s context input).res.Status = 0
          ∧ (SignIn c env s context input).store = s)
      ∧ ((env.validateSignIn input).2 = none ∧ (env.validateSignIn input).1 = true →
        (SignIn.body c env s context input).err = none →
        (SignIn.body c env s context input).recovered = none →
        ∀ e, env.faults.commit = some e →
          (SignIn c env s context input).tx = TxOutcome.commitFailed
            ∧ (SignIn c env s context input).res.Data = none
            ∧ (SignIn c env s context input).res.Status = 0
            ∧ (SignIn c env s context input).res.Message = e.Error c
            ∧ (SignIn c env s context input).store = s)
      ∧ ((SignIn c env s context input).tx = TxOutcome.committed →
        (SignIn.body c env s context input).err = none
          ∧ (SignIn.body c env s context input).recovered = none
          ∧ env.faults.commit = none
          ∧ (SignIn c env s context input).res.Status = c.StatusSuccess
          ∧ (SignIn c env s context input).res.Data ≠ none
          ∧ ∃ u ∈ s.users, User.matches (SignIn.resolve env input) u = true
            ∧ (SignIn c env s context input).store =
              { s with loginLogs := s.loginLogs ++
                [{ Id := env.newLogId, Uid := u.Id, LoginType := c.LoginLogTypeUserName,
                   Command := c.LoginLogCommandLoginSuccess, Client := context.UserAgent,
                   LastIp := context.Ip, CreatedAt := env.now }] }) := by
  have hb := signIn_body_tx c env s context input
  have hok := signIn_body_ok c env s context input
  have hop := signIn_body_opened c env s context input
  obtain ⟨o1, o2, o3, o4⟩ := deferred_outcome c env s (SignIn.body c env s context input)
  unfold SignIn
  refine ⟨?_, ?_, ?_, ?_, ?_⟩
  · rcases deferred_cases c env s (SignIn.body c env s context input) with
      ⟨_, _, _, _, _, h6, _, h8⟩ | ⟨h1, _, h3, _, _⟩ | ⟨h1, h2, _⟩
    · intro h; rcases h with h | h
      · rw [h8] at h; exact absurd h (by simp)
      · exact absurd h6 h
    · intro _; exact ⟨h3, by rw [h3], h1⟩
    · exact absurd h2 (hb h1)
  · intro hv
    have htx : (SignIn.body c env s context input).tx = none := by
      by_contra h; exact hv (hop.mp h)
    exact ⟨(o1 htx).1, (o2 (Or.inl (hb htx))).1, (o1 htx).2⟩
  · intro hv he
    have htx := hop.mpr hv
    exact ⟨o3 htx he, (o2 he).1, (o2 he).2.1, (o2 he).2.2⟩
  · intro hv h1 h2 e he
    exact o4 (hop.mpr hv) h1 h2 e he
  · rcases deferred_cases c env s (SignIn.body c env s context input) with
      ⟨_, h2, h3, h4, h5, h6, _, h8⟩ | ⟨h1, _, _, _, _⟩ | ⟨h1, h2, _⟩
    · intro _
      refine ⟨h2, h3, h4, h6, ?_, ?_⟩
      · rw [h8]; simp
      · obtain ⟨u, hu, hm, hw, _⟩ := hok _ h2 h3 h5
        exact ⟨u, hu, hm, hw⟩
    · intro h; exact absurd h h1
    · exact absurd h2 (hb h1)

theorem cond_iff {α : Type} [DecidableEq α] (zero f r : α) :
    cond zero f r = true ↔ (f = zero ∨ r = f) := by
  simp only [cond, Bool.or_eq_true, decide_eq_true_eq]
  constructor
  · rintro (h | h)
    · exact Or.inl h
    · exact Or.inr h.symm
  · rintro (h | h)
    · exact Or.inl h
    · exact Or.inr h.symm

theorem signIn_resolve_matches (env : Env) (input : SignInParams) (r : User)
    (hacc : input.Account ≠ "") (hpw : env.GeneratePassword input.Password ≠ "") :
    User.matches (SignIn.resolve env input) r = true ↔
      r.Password = env.GeneratePassword input.Password
        ∧ (if env.IsPhone input.Account = true ∧ input.Code ≠ none then
            r.Phone = some input.Account
          else if env.IsEmail input.Account = true then r.Email = some input.Account
          else r.Username = input.Account) := by
  unfold SignIn.resolve
  simp only []
  split
  · simp [User.matches, cond_iff, hpw]
  · split
    · simp [User.matches, cond_iff, hpw]
    · simp [User.matches, cond_iff, hpw, hacc]
      exact And.comm

/-- C10: the account resolver of `auth.SignIn` sets exactly one lookup key next
to the password hash.  For a non-empty account and a non-empty hash, a user row
satisfies the lookup condition exactly when its password equals the hash of the
supplied password and its phone equals the account (account is a phone number and
a code is supplied), otherwise its email equals the account (account is an email
address), otherwise its username equals the account.  A phone-number account
without a code that is not an email address is looked up by username.  Whenever
`SignIn` returns data, it is the profile of a stored user satisfying that
condition. -/
theorem signIn_resolver (c : Consts) (env : Env) (s : Store) (context : Context)
    (input : SignInParams)
    (hacc : input.Account ≠ "") (hpw : env.GeneratePassword input.Password ≠ "") :
    (∀ r : User, User.matches (SignIn.resolve env input) r = true ↔
        r.Password = env.GeneratePassword input.Password
          ∧ (if env.IsPhone input.Account = true ∧ input.Code ≠ none then
              r.Phone = some input.Account
            else if env.IsEmail input.Account = true then r.Email = some input.Account
            else r.Username = input.Account))
      ∧ (env.IsPhone input.Account = true → input.Code = none →
          env.IsEmail input.Account = false →
          ∀ r : User, User.matches (SignIn.resolve env input) r = true ↔
            r.Password = env.GeneratePassword input.Password ∧ r.Username = input.Account)
      ∧ (∀ d, (SignIn c env s context input).res.Data = some d →
          ∃ u ∈ s.users, d.ProfilePure.Id = u.Id
            ∧ u.Password = env.GeneratePassword input.Password
            ∧ (if env.IsPhone input.Account = true ∧ input.Code ≠ none then
                u.Phone = some input.Account
              else if env.IsEmail input.Account = true then u.Email = some input.Account
              else u.Username = input.Account)) := by
  refine ⟨fun r => signIn_resolve_matches env input r hacc hpw, ?_, ?_⟩
  · intro _ hcode hemail r
    rw [signIn_resolve_matches env input r hacc hpw]
    simp [hcode, hemail]
  · intro d hd
    have hb := signIn_body_tx c env s context input
    unfold SignIn at hd
    rcases deferred_cases c env s (SignIn.body c env s context input) with
      ⟨_, h2, h3, _, h5, _, _, h8⟩ | ⟨_, _, _, _, h5⟩ | ⟨h1, h2, _⟩
    · obtain ⟨u, hu, hm, _, hid⟩ := signIn_body_ok c env s context input _ h2 h3 h5
      rw [h8] at hd
      have hd' : (SignIn.body c env s context input).data = d := by simpa using hd
      rw [signIn_resolve_matches env input u hacc hpw] at hm
      exact ⟨u, hu, by rw [← hd']; exact hid, hm.1, hm.2⟩
    · rw [h5] at hd; simp at hd
    · exact absurd h2 (hb h1)

/-- Witness of C10: the phone number `13800000000` given without a code is looked
up by username and password hash. -/
theorem signIn_resolver_witness :
    ("13800000000" ≠ "" ∧ sampleEnv.GeneratePassword "pw" ≠ "")
      ∧ (∀ r : User,
        User.matches (SignIn.resolve sampleEnv { Account := "13800000000", Password := "pw" })
            r = true ↔
          r.Password = sampleEnv.GeneratePassword "pw" ∧ r.Username = "13800000000") :=
  ⟨⟨by decide, by decide⟩,
    (signIn_resolver sampleConsts sampleEnv sampleAuthStore {}
      { Account := "13800000000", Password := "pw" } (by decide) (by decide)).2.1
      (by decide) rfl (by decide)⟩

/-- C4 at a failing input: the stored user `alice` is inactive and matches the
account and password, yet `auth.SignIn` answers with a success carrying a token,
writes a login log and commits. -/
theorem signIn_inactive_not_rejected :
    sampleAlice ∈ sampleAuthStore.users
      ∧ sampleAlice.Status = sampleConsts.UserStatusInactivated
      ∧ User.matches (SignIn.resolve sampleEnv { Account := "alice", Password := "pw" })
          sampleAlice = true
      ∧ (SignIn sampleConsts sampleEnv sampleAuthStore {}
          { Account := "alice", Password := "pw" }).res.Status = sampleConsts.StatusSuccess
      ∧ (SignIn sampleConsts sampleEnv sampleAuthStore {}
          { Account := "alice", Password := "pw" }).res.Message = ""
      ∧ ((SignIn sampleConsts sampleEnv sampleAuthStore {}
          { Account := "alice", Password := "pw" }).res.Data.map (fun d => d.Token))
          = some "token-u1"
      ∧ (SignIn sampleConsts sampleEnv sampleAuthStore {}
          { Account := "alice", Password := "pw" }).store.loginLogs
          = [{ Id := "l9", Uid := "u1", LoginType := "username", Command := 1, CreatedAt := 7 }]
      ∧ (SignIn sampleConsts sampleEnv sampleAuthStore {}
          { Account := "alice", Password := "pw" }).tx = TxOutcome.committed := by
  decide

/-- C5 at a failing input: with the mapping of `openid-1` in the store,
`auth.SignInWithWechat` issues a token and writes one login log of type wechat;
on the empty store it creates the inactive user and the mapping, commits, and
answers with a success whose data holds no token, and it writes no login log. -/
theorem signInWithWechat_new_user_no_token :
    sampleAuthStore.wechatOpenIDs = [{ Id := "openid-1", Uid := "u1" }]
      ∧ ((SignInWithWechat sampleConsts sampleEnv sampleAuthStore {}
          { Code := "c" }).res.Data.map (fun d => d.Token)) = some "token-u1"
      ∧ (SignInWithWechat sampleConsts sampleEnv sampleAuthStore {}
          { Code := "c" }).store.loginLogs
          = [{ Id := "l9", Uid := "u1", LoginType := "wechat", Command := 1, CreatedAt := 7 }]
      ∧ (SignInWithWechat sampleConsts sampleEnv {} {} { Code := "c" }).res.Status
          = sampleConsts.StatusSuccess
      ∧ (SignInWithWechat sampleConsts sampleEnv {} {} { Code := "c" }).res.Data = some {}
      ∧ ((SignInWithWechat sampleConsts sampleEnv {} {}
          { Code := "c" }).res.Data.map (fun d => d.Token)) = some ""
      ∧ (SignInWithWechat sampleConsts sampleEnv {} {} { Code := "c" }).store.loginLogs = []
      ∧ (SignInWithWechat sampleConsts sampleEnv {} {} { Code := "c" }).store.users
          = [{ Id := "u9", Username := "vg1", Nickname := some "vg1", Password := "#g1",
               Status := -1, Role := ["user"], Gender := 0, CreatedAt := 7, UpdatedAt := 7 }]
      ∧ (SignInWithWechat sampleConsts sampleEnv {} {} { Code := "c" }).store.wechatOpenIDs
          = [{ Id := "openid-1", Uid := "u9" }]
      ∧ (SignInWithWechat sampleConsts sampleEnv {} {} { Code := "c" }).tx
          = TxOutcome.committed := by
  decide

/-- C9 at a failing input: the session exchange reports error code 40029 and no
openid, and the store already holds the mapping of `openid-1` to `alice`.  The
condition built from the empty openid constrains nothing, the lookup returns that
first mapping, and `auth.SignInWithWechat` answers with a success carrying a
token of `alice`, writes a login log and commits. -/
theorem signInWithWechat_errcode_ignored :
    sampleEnvWechatError.wechatGet "c"
        = WechatExchange.ok { ErrCode := 40029, ErrMsg := "invalid code", OpenID := "" }
      ∧ sampleAuthStore.wechatOpenIDs = [{ Id := "openid-1", Uid := "u1" }]
      ∧ (SignInWithWechat sampleConsts sampleEnvWechatError sampleAuthStore {}
          { Code := "c" }).res.Status = sampleConsts.StatusSuccess
      ∧ (SignInWithWechat sampleConsts sampleEnvWechatError sampleAuthStore {}
          { Code := "c" }).res.Message = ""
      ∧ ((SignInWithWechat sampleConsts sampleEnvWechatError sampleAuthStore {}
          { Code := "c" }).res.Data.map (fun d => d.Token)) = some "token-u1"
      ∧ ((SignInWithWechat sampleConsts sampleEnvWechatError sampleAuthStore {}
          { Code := "c" }).res.Data.map (fun d => d.ProfilePure.Id)) = some "u1"
      ∧ (SignInWithWechat sampleConsts sampleEnvWechatError sampleAuthStore {}
          { Code := "c" }).store.loginLogs
          = [{ Id := "l9", Uid := "u1", LoginType := "wechat", Command := 1, CreatedAt := 7 }]
      ∧ (SignInWithWechat sampleConsts sampleEnvWechatError sampleAuthStore {}
          { Code := "c" }).tx = TxOutcome.committed := by
  decide

/-- C6 at a failing input: `alice` is inactive and linked to `openid-1`.  A
completion that supplies a username, a phone, or both reaches the update of line
418, which names no table; the driver rejects it, the response carries the
driver error with nil data, the transaction is rolled back and the store is
unchanged: `alice` is still inactive, with her old username and no phone.  The
value of `UserStatusInit` plays no part. -/
theorem wechatAccountComplete_rolled_back :
    sampleAlice ∈ sampleAuthStore.users
      ∧ sampleAlice.Status = sampleConsts.UserStatusInactivated
      ∧ sampleAuthStore.wechatOpenIDs = [{ Id := "openid-1", Uid := sampleAlice.Id }]
      ∧ (WechatAccountComplete sampleConsts sampleEnv sampleAuthStore {}
          { Code := "c", Username := some "alice2" }).res.Message
          = sampleEnv.updateNoTable.Error sampleConsts
      ∧ (WechatAccountComplete sampleConsts sampleEnv sampleAuthStore {}
          { Code := "c", Username := some "alice2" }).res.Data = none
      ∧ (WechatAccountComplete sampleConsts sampleEnv sampleAuthStore {}
          { Code := "c", Username := some "alice2" }).res.Status = sampleConsts.StatusFail
      ∧ (WechatAccountComplete sampleConsts sampleEnv sampleAuthStore {}
          { Code := "c", Username := some "alice2" }).tx = TxOutcome.rolledBack
      ∧ (WechatAccountComplete sampleConsts sampleEnv sampleAuthStore {}
          { Code := "c", Username := some "alice2" }).store = sampleAuthStore
      ∧ (WechatAccountComplete sampleConsts sampleEnv sampleAuthStore {}
          { Code := "c", Phone := some "13800000000" }).res.Message
          = sampleEnv.updateNoTable.Error sampleConsts
      ∧ (WechatAccountComplete sampleConsts sampleEnv sampleAuthStore {}
          { Code := "c", Phone := some "13800000000" }).tx = TxOutcome.rolledBack
      ∧ (WechatAccountComplete sampleConsts sampleEnv sampleAuthStore {}
          { Code := "c", Phone := some "13800000000" }).store = sampleAuthStore
      ∧ (WechatAccountComplete sampleConstsInit1 sampleEnv sampleAuthStore {}
          { Code := "c", Phone := some "13800000000", Username := some "alice2" }).tx
          = TxOutcome.rolledBack
      ∧ (WechatAccountComplete sampleConstsInit1 sampleEnv sampleAuthStore {}
          { Code := "c", Phone := some "13800000000", Username := some "alice2" }).store
          = sampleAuthStore := by
  decide

theorem wechatAccountComplete_complete_none (c : Consts) (env : Env) (tx : Store)
    (userInfo : User) (input : WechatCompleteParams)
    (h : (WechatAccountComplete.complete c env tx userInfo input).1 = none) :
    input.Phone = none ∧ input.Username = none
      ∧ (WechatAccountComplete.complete c env tx userInfo input).2 = tx := by
  revert h
  unfold WechatAccountComplete.complete
  split
  · simp [Update]
  · rename_i hn
    intro _
    exact ⟨by_contra fun h => hn (Or.inl h), by_contra fun h => hn (Or.inr h), rfl⟩

theorem wechatAccountComplete_body_ok (c : Consts) (env : Env) (s : Store)
    (context : Context) (input : WechatCompleteParams) (w : Store)
    (h1 : (WechatAccountComplete.body c env s context input).err = none)
    (h2 : (WechatAccountComplete.body c env s context input).recovered = none)
    (h3 : (WechatAccountComplete.body c env s context input).tx = some w) :
    input.Phone = none ∧ input.Username = none ∧ w.users = s.users := by
  revert h1 h2 h3
  unfold WechatAccountComplete.body
  simp only []
  split
  · simp
  · split
    · simp
    · split
      · simp
      · split
        · simp
        · simp
        · simp
        · split
          · simp
          · split
            · simp
            · rename_i hupd
              obtain ⟨hp, hn, hu⟩ := wechatAccountComplete_complete_none c env s _ input hupd
              split
              · simp
              · intro h1 h2 h3
                have hi := (issue_ok c env context _ _ _ w h1 h2 h3).1
                refine ⟨hp, hn, ?_⟩
                rw [hi, hu]

theorem wechatAccountComplete_body_tx (c : Consts) (env : Env) (s : Store)
    (context : Context) (input : WechatCompleteParams)
    (h : (WechatAccountComplete.body c env s context input).tx = none) :
    (WechatAccountComplete.body c env s context input).err ≠ none := by
  revert h
  unfold WechatAccountComplete.body issue
  simp only []
  repeat' split
  all_goals simp

/-- `WechatAccountComplete` never changes the user table, and a call that
supplies a phone or a username never succeeds: whenever it gets as far as the
update, the update fails and the transaction is rolled back. -/
theorem wechatAccountComplete_never_updates (c : Consts) (env : Env) (s : Store)
    (context : Context) (input : WechatCompleteParams) :
    (WechatAccountComplete c env s context input).store.users = s.users
      ∧ (input.Phone ≠ none ∨ input.Username ≠ none →
        (WechatAccountComplete c env s context input).res.Data = none
          ∧ (WechatAccountComplete c env s context input).store = s
          ∧ (WechatAccountComplete c env s context input).tx ≠ TxOutcome.committed) := by
  have hb := wechatAccountComplete_body_tx c env s context input
  have hok := wechatAccountComplete_body_ok c env s context input
  unfold WechatAccountComplete
  rcases deferred_cases c env s (WechatAccountComplete.body c env s context input) with
    ⟨_, h2, h3, _, h5, _, _, _⟩ | ⟨h1, _, h3, _, h5⟩ | ⟨h1, h2, _⟩
  · obtain ⟨hp, hn, hu⟩ := hok _ h2 h3 h5
    refine ⟨hu, ?_⟩
    intro h; rcases h with h | h
    · exact absurd hp h
    · exact absurd hn h
  · exact ⟨by rw [h3], fun _ => ⟨h5, h3, h1⟩⟩
  · exact absurd h2 (hb h1)

theorem user_matches_id_status (f r : User) (h : User.matches f r = true) :
    (f.Id ≠ "" → r.Id = f.Id) ∧ (f.Status ≠ 0 → r.Status = f.Status) := by
  simp only [User.matches, Bool.and_eq_true, cond_iff] at h
  obtain ⟨⟨⟨⟨⟨⟨⟨⟨⟨⟨⟨h1, _⟩, _⟩, _⟩, _⟩, _⟩, h7⟩, _⟩, _⟩, _⟩, _⟩, _⟩ := h
  constructor
  · intro hne; rcases h1 with h1 | h1
    · exact absurd h1 hne
    · exact h1
  · intro hne; rcases h7 with h7 | h7
    · exact absurd h7 hne
    · exact h7

theorem user_eq_of_id (s : Store) (hk : UserKeys s) (a b : User) (ha : a ∈ s.users)
    (hb : b ∈ s.users) (h : a.Id = b.Id) : a = b :=
  List.inj_on_of_nodup_map hk.1 ha hb h

/-! ## Companions of the evaluations above, for arbitrary constants and stores -/

theorem signIn_statusCheck_eq (c : Consts) (status : Int) :
    SignIn.statusCheck c status
      = if status ≠ c.UserStatusInactivated ∧ status = c.UserStatusBanned then
          some (Err.exception Exception.UserHaveBeenBan)
        else none := by
  unfold SignIn.statusCheck
  split_ifs <;> simp_all

/-- The status gate of `SignIn` lets every inactive user through. -/
theorem signIn_statusCheck_inactivated (c : Consts) :
    SignIn.statusCheck c c.UserStatusInactivated = none := by
  simp [signIn_statusCheck_eq]

/-- A banned user found by the lookup of `SignIn` is rejected with
`UserHaveBeenBan`, gets no data and leaves the store as it was. -/
theorem signIn_banned_rejected (c : Consts) (env : Env) (s : Store) (context : Context)
    (input : SignInParams) (u : User)
    (hv : env.validateSignIn input = (true, none))
    (hq : Last env.faults.last (User.matches (SignIn.resolve env input)) s.users
        (SignIn.resolve env input) = (u, none))
    (hb : u.Status = c.UserStatusBanned)
    (hne : c.UserStatusBanned ≠ c.UserStatusInactivated) :
    (SignIn c env s context input).res.Message
        = (Err.exception Exception.UserHaveBeenBan).Error c
      ∧ (SignIn c env s context input).res.Data = none
      ∧ (SignIn c env s context input).store = s := by
  simp [SignIn, SignIn.body, hv, hq, signIn_statusCheck_eq, hb, hne, deferred, settle,
    helper.Response]

/-- An inactive user found by the lookup of `SignIn` is signed in: with a working
token service and database the response is a success carrying the token, and a
login log is written. -/
theorem signIn_inactive_signed_in (c : Consts) (env : Env) (s : Store) (context : Context)
    (input : SignInParams) (u : User) (tok : String)
    (hv : env.validateSignIn input = (true, none))
    (hq : Last env.faults.last (User.matches (SignIn.resolve env input)) s.users
        (SignIn.resolve env input) = (u, none))
    (hi : u.Status = c.UserStatusInactivated)
    (hd : env.decode = none) (ht : env.tokenGenerate u.Id false = Outcome.ok tok)
    (hl : env.faults.createLog = none) (hc : env.faults.commit = none) :
    (SignIn c env s context input).res.Status = c.StatusSuccess
      ∧ (SignIn c env s context input).res.Data.map (fun d => d.Token) = some tok
      ∧ (SignIn c env s context input).store.loginLogs = s.loginLogs ++
          [{ Id := env.newLogId, Uid := u.Id, LoginType := c.LoginLogTypeUserName,
             Command := c.LoginLogCommandLoginSuccess, Client := context.UserAgent,
             LastIp := context.Ip, CreatedAt := env.now }] := by
  simp [SignIn, SignIn.body, hv, hq, signIn_statusCheck_eq, hi, issue, hd, ht, hl, hc,
    deferred, settle, helper.Response]

/-- When no mapping exists for a non-empty openid, `SignInWithWechat` creates the
user and the mapping and returns at once: the response is a success whose data is
the empty profile (no token), and no login log is written. -/
theorem signInWithWechat_new_user (c : Consts) (env : Env) (s : Store) (context : Context)
    (input : SignInWithWechatParams) (reqRes : WechatResponse)
    (hv : env.validateSignInWithWechat input = (true, none))
    (hw : env.wechatGet input.Code = WechatExchange.ok reqRes)
    (hne : reqRes.OpenID ≠ "")
    (hf : (firstWithUser env s { Id := reqRes.OpenID }).2 = some Err.ErrRecordNotFound)
    (hcu : env.faults.createUser = none) (hco : env.faults.createOpenID = none)
    (hc : env.faults.commit = none) :
    (SignInWithWechat c env s context input).res.Status = c.StatusSuccess
      ∧ (SignInWithWechat c env s context input).res.Data = some {}
      ∧ (SignInWithWechat c env s context input).store.loginLogs = s.loginLogs
      ∧ (SignInWithWechat c env s context input).store.wechatOpenIDs
          = s.wechatOpenIDs ++ [{ Id := reqRes.OpenID, Uid := env.newUserId }]
      ∧ (SignInWithWechat c env s context input).tx = TxOutcome.committed := by
  simp [SignInWithWechat, SignInWithWechat.body, CreateWechatOpenID, hv, hw, hne, hf, hcu,
    hco, hc, deferred, settle, helper.Response]

/-- `SignInWithWechat` never reads `ErrCode` or `ErrMsg` of the session-exchange
response: two responses with the same openid give the same run. -/
theorem signInWithWechat_ignores_errcode (c : Consts) (env : Env) (s : Store)
    (context : Context) (input : SignInWithWechatParams) (r1 r2 : WechatResponse)
    (h : r1.OpenID = r2.OpenID) :
    SignInWithWechat c { env with wechatGet := fun _ => WechatExchange.ok r1 } s context input
      = SignInWithWechat c { env with wechatGet := fun _ => WechatExchange.ok r2 } s context
          input := by
  simp [SignInWithWechat, SignInWithWechat.body, CreateWechatOpenID, h, firstWithUser, issue,
    deferred]

theorem user_matches_self (u : User) : User.matches u u = true := by
  simp [User.matches, cond]

theorem user_requery (s : Store) (hk : UserKeys s) (u : User) (hu : u ∈ s.users) :
    Last none (User.matches u) s.users u = (u, none) := by
  apply Last_found
  apply find_reverse_of_key (fun r => r.Id) _ _ _ hk.1 hu
  intro x hx
  constructor
  · intro h; exact (user_matches_id_status u x h).1 (hk.2 u hu)
  · intro h
    have : x = u := user_eq_of_id s hk x u hx hu h
    rw [this]; exact user_matches_self u

theorem firstWithUser_found (env : Env) (s : Store) (openid : String) (m : WechatOpenID)
    (u : User) (hfirst : env.faults.first = none) (hk : UserKeys s)
    (hmk : (s.wechatOpenIDs.map (fun r => r.Id)).Nodup)
    (hm : m ∈ s.wechatOpenIDs) (hmid : m.Id = openid) (hne : openid ≠ "")
    (hu : u ∈ s.users) (huid : u.Id = m.Uid) :
    firstWithUser env s { Id := openid } = ({ m with User := u }, none) := by
  have h1 : s.wechatOpenIDs.find? (WechatOpenID.matches { Id := openid }) = some m := by
    apply find_of_key (fun r => r.Id) _ _ _ hmk hm
    intro x _
    simp [WechatOpenID.matches, cond_iff, hne, hmid]
  have h2 : s.users.find? (fun r => decide (r.Id = m.Uid)) = some u := by
    apply find_of_key (fun r => r.Id) _ _ _ hk.1 hu
    intro x _
    simp [huid]
  simp [firstWithUser, First, hfirst, h1, h2]

/-- When the openid is already mapped to a stored user, `SignInWithWechat` issues
a token for that user and appends one login log of type wechat, and changes
nothing else. -/
theorem signInWithWechat_existing_user (c : Consts) (env : Env) (s : Store)
    (context : Context) (input : SignInWithWechatParams) (reqRes : WechatResponse)
    (m : WechatOpenID) (u : User) (tok : String)
    (hv : env.validateSignInWithWechat input = (true, none))
    (hw : env.wechatGet input.Code = WechatExchange.ok reqRes)
    (hfirst : env.faults.first = none) (hlast : env.faults.last = none)
    (hk : UserKeys s) (hmk : (s.wechatOpenIDs.map (fun r => r.Id)).Nodup)
    (hm : m ∈ s.wechatOpenIDs) (hmid : m.Id = reqRes.OpenID) (hne : reqRes.OpenID ≠ "")
    (hu : u ∈ s.users) (huid : u.Id = m.Uid)
    (hd : env.decode = none) (ht : env.tokenGenerate u.Id false = Outcome.ok tok)
    (hl : env.faults.createLog = none) (hc : env.faults.commit = none) :
    (SignInWithWechat c env s context input).res.Status = c.StatusSuccess
      ∧ (SignInWithWechat c env s context input).res.Data.map (fun d => d.Token) = some tok
      ∧ (SignInWithWechat c env s context input).store =
          { s with loginLogs := s.loginLogs ++
            [{ Id := env.newLogId, Uid := u.Id, LoginType := c.LoginLogTypeWechat,
               Command := c.LoginLogCommandLoginSuccess, Client := context.UserAgent,
               LastIp := context.Ip, CreatedAt := env.now }] } := by
  have hf := firstWithUser_found env s reqRes.OpenID m u hfirst hk hmk hm hmid hne hu huid
  have hq := user_requery s hk u hu
  simp [SignInWithWechat, SignInWithWechat.body, hv, hw, hf, hlast, hq, issue, hd, ht, hl, hc,
    deferred, settle, helper.Response]

theorem firstWithUser_blank (env : Env) (s : Store) (m : WechatOpenID)
    (rest : List WechatOpenID) (u : User) (hfirst : env.faults.first = none)
    (hk : UserKeys s) (hm : s.wechatOpenIDs = m :: rest)
    (hu : u ∈ s.users) (huid : u.Id = m.Uid) :
    firstWithUser env s { Id := "" } = ({ m with User := u }, none) := by
  have h2 : s.users.find? (fun r => decide (r.Id = m.Uid)) = some u := by
    apply find_of_key (fun r => r.Id) _ _ _ hk.1 hu
    intro x _
    simp [huid]
  simp [firstWithUser, First, hfirst, hm, WechatOpenID.matches, cond, h2]

/-- A session-exchange response without openid, whatever its error code, signs in
the user of the first stored mapping: with a working token service and database
`SignInWithWechat` issues a token for that user, appends a login log of type
wechat and commits. -/
theorem signInWithWechat_blank_openid (c : Consts) (env : Env) (s : Store)
    (context : Context) (input : SignInWithWechatParams) (reqRes : WechatResponse)
    (m : WechatOpenID) (rest : List WechatOpenID) (u : User) (tok : String)
    (hv : env.validateSignInWithWechat input = (true, none))
    (hw : env.wechatGet input.Code = WechatExchange.ok reqRes)
    (hb : reqRes.OpenID = "")
    (hfirst : env.faults.first = none) (hlast : env.faults.last = none)
    (hk : UserKeys s) (hm : s.wechatOpenIDs = m :: rest)
    (hu : u ∈ s.users) (huid : u.Id = m.Uid)
    (hd : env.decode = none) (ht : env.tokenGenerate u.Id false = Outcome.ok tok)
    (hl : env.faults.createLog = none) (hc : env.faults.commit = none) :
    (SignInWithWechat c env s context input).res.Status = c.StatusSuccess
      ∧ (SignInWithWechat c env s context input).res.Data.map (fun d => d.Token) = some tok
      ∧ (SignInWithWechat c env s context input).store =
          { s with loginLogs := s.loginLogs ++
            [{ Id := env.newLogId, Uid := u.Id, LoginType := c.LoginLogTypeWechat,
               Command := c.LoginLogCommandLoginSuccess, Client := context.UserAgent,
               LastIp := context.Ip, CreatedAt := env.now }] }
      ∧ (SignInWithWechat c env s context input).tx = TxOutcome.committed := by
  have hf := firstWithUser_blank env s m rest u hfirst hk hm hu huid
  have hq := user_requery s hk u hu
  simp [SignInWithWechat, SignInWithWechat.body, hv, hw, hb, hf, hlast, hq, issue, hd, ht, hl,
    hc, deferred, settle, helper.Response]

/-- A session-exchange response without openid on a store without mappings: the
user insert runs, the mapping insert is rejected for its blank primary key, the
response is a failure carrying that error and the transaction is rolled back. -/
theorem signInWithWechat_blank_openid_new (c : Consts) (env : Env) (s : Store)
    (context : Context) (input : SignInWithWechatParams) (reqRes : WechatResponse)
    (hv : env.validateSignInWithWechat input = (true, none))
    (hw : env.wechatGet input.Code = WechatExchange.ok reqRes)
    (hb : reqRes.OpenID = "")
    (hfirst : env.faults.first = none) (hm : s.wechatOpenIDs = [])
    (hcu : env.faults.createUser = none) :
    (SignInWithWechat c env s context input).res.Data = none
      ∧ (SignInWithWechat c env s context input).res.Message = env.insertBlankKey.Error c
      ∧ (SignInWithWechat c env s context input).tx = TxOutcome.rolledBack
      ∧ (SignInWithWechat c env s context input).store = s := by
  simp [SignInWithWechat, SignInWithWechat.body, CreateWechatOpenID, firstWithUser, First,
    hv, hw, hb, hfirst, hm, hcu, deferred, settle, helper.Response]

/-- A lookup error of `invite.Get` other than record-not-found is lost: a
non-empty requester is answered with `NoPermission`; the empty requester, when
decoding and the commit succeed, with a success. -/
theorem invite_get_lookup_error_masked (c : Consts) (env : Env) (s : Store)
    (context : Context) (id : String) (e : Err)
    (hf : env.faults.last = some e) (he : e ≠ Err.ErrRecordNotFound) :
    (context.Uid ≠ "" →
        (Get c env s context id).res.Message = (Err.exception Exception.NoPermission).Error c)
      ∧ (context.Uid = "" → env.decode = none → env.faults.commit = none →
        (Get c env s context id).res.Status = c.StatusSuccess
          ∧ (Get c env s context id).tx = TxOutcome.committed) := by
  constructor
  · intro hu
    have hu' : ¬ "" = context.Uid := fun h => hu h.symm
    simp [Get, Get.body, Last, hf, he, hu', settle]
  · intro hu hd hc
    simp [Get, Get.body, Last, hf, he, hu, hd, hc, settle]

/-! ## The companions at the sample store -/

theorem sampleAuthStore_keys : UserKeys sampleAuthStore := by
  constructor
  · decide
  · intro u hu
    simp [sampleAuthStore, sampleAlice, sampleBob] at hu
    rcases hu with rfl | rfl <;> decide

theorem signInWithWechat_existing_user_sample :
    (SignInWithWechat sampleConsts sampleEnv sampleAuthStore {} { Code := "c" }).res.Status
        = sampleConsts.StatusSuccess
      ∧ (SignInWithWechat sampleConsts sampleEnv sampleAuthStore {}
          { Code := "c" }).res.Data.map (fun d => d.Token) = some "token-u1"
      ∧ (SignInWithWechat sampleConsts sampleEnv sampleAuthStore {} { Code := "c" }).store =
          { sampleAuthStore with loginLogs := sampleAuthStore.loginLogs ++
            [{ Id := sampleEnv.newLogId, Uid := sampleAlice.Id,
               LoginType := sampleConsts.LoginLogTypeWechat,
               Command := sampleConsts.LoginLogCommandLoginSuccess,
               Client := ({} : Context).UserAgent, LastIp := ({} : Context).Ip,
               CreatedAt := sampleEnv.now }] } :=
  signInWithWechat_existing_user sampleConsts sampleEnv sampleAuthStore {} { Code := "c" }
    { OpenID := "openid-1", SessionKey := "k" } { Id := "openid-1", Uid := "u1" } sampleAlice
    "token-u1" rfl rfl rfl rfl sampleAuthStore_keys (by decide) (by simp [sampleAuthStore])
    rfl (by decide) (by simp [sampleAuthStore]) rfl rfl (by decide) rfl rfl

theorem signInWithWechat_blank_openid_sample :
    (SignInWithWechat sampleConsts sampleEnvWechatError sampleAuthStore {}
        { Code := "c" }).res.Status = sampleConsts.StatusSuccess
      ∧ (SignInWithWechat sampleConsts sampleEnvWechatError sampleAuthStore {}
        { Code := "c" }).res.Data.map (fun d => d.Token) = some "token-u1"
      ∧ (SignInWithWechat sampleConsts sampleEnvWechatError sampleAuthStore {}
        { Code := "c" }).store =
          { sampleAuthStore with loginLogs := sampleAuthStore.loginLogs ++
            [{ Id := sampleEnvWechatError.newLogId, Uid := sampleAlice.Id,
               LoginType := sampleConsts.LoginLogTypeWechat,
               Command := sampleConsts.LoginLogCommandLoginSuccess,
               Client := ({} : Context).UserAgent, LastIp := ({} : Context).Ip,
               CreatedAt := sampleEnvWechatError.now }] }
      ∧ (SignInWithWechat sampleConsts sampleEnvWechatError sampleAuthStore {}
        { Code := "c" }).tx = TxOutcome.committed :=
  signInWithWechat_blank_openid sampleConsts sampleEnvWechatError sampleAuthStore {}
    { Code := "c" } { ErrCode := 40029, ErrMsg := "invalid code" }
    { Id := "openid-1", Uid := "u1" } [] sampleAlice "token-u1" rfl rfl rfl rfl rfl
    sampleAuthStore_keys rfl (by simp [sampleAuthStore]) rfl rfl (by decide) rfl rfl

theorem signIn_banned_rejected_sample :
    (SignIn sampleConsts sampleEnv sampleAuthStore {}
        { Account := "bob", Password := "pw" }).res.Message
        = (Err.exception Exception.UserHaveBeenBan).Error sampleConsts
      ∧ (SignIn sampleConsts sampleEnv sampleAuthStore {}
        { Account := "bob", Password := "pw" }).res.Data = none
      ∧ (SignIn sampleConsts sampleEnv sampleAuthStore {}
        { Account := "bob", Password := "pw" }).store = sampleAuthStore :=
  signIn_banned_rejected sampleConsts sampleEnv sampleAuthStore {}
    { Account := "bob", Password := "pw" } sampleBob rfl (by decide) rfl (by decide)

end GoServer
